import Mathlib

/-!
Shallow embedding of the resume-mate core: the pydantic schema models of
`src/resume_mate/core/models.py`, the file-format dispatch of
`src/resume_mate/utils/file_io.py`, the LLM-backed merge of
`src/resume_mate/ai/agent.py` (the remote completion is abstracted as an
oracle parameter), and the `update` command flow of `src/resume_mate/main.py`.

Untyped input mappings (the JSON/YAML payloads the code validates with
pydantic) are modelled by `Value`; pydantic validation is modelled by the
`fromValue` functions, which mirror the source models field by field:
`model_config = ConfigDict(populate_by_name=True)` means a field is looked up
under its alias first, then under its Python name, and unknown keys are
ignored (pydantic's default `extra="ignore"`).  Validation errors accumulate
across fields, as pydantic reports every offending field.
-/

/-- A JSON/YAML-shaped untyped value, as handed to `MasterProfile(**data)`. -/
inductive Value where
  | str (s : String)
  | null
  | list (items : List Value)
  | obj (fields : List (String × Value))

/-- A single validation error, carrying the dotted path of the offending
field, mirroring pydantic's error `loc`. -/
inductive FieldErr where
  | missing (path : String)
  | wrongType (path : String)
  | invalidUrl (path : String)
deriving DecidableEq

/-- Re-root an error under a sub-model path, as pydantic prepends the parent
field name to nested error locations. -/
def FieldErr.nest (pre : String) : FieldErr → FieldErr
  | .missing p => .missing (pre ++ p)
  | .wrongType p => .wrongType (pre ++ p)
  | .invalidUrl p => .invalidUrl (pre ++ p)

/-- Validation result: a value or the accumulated list of field errors. -/
abbrev V (α : Type) := Except (List FieldErr) α

/-- Applicative combination that accumulates errors from both sides, the way
pydantic reports all invalid fields of a model at once. -/
def vseq {α β : Type} : V (α → β) → V α → V β
  | .ok f, .ok a => .ok (f a)
  | .error e, .ok _ => .error e
  | .ok _, .error e => .error e
  | .error e, .error e2 => .error (e ++ e2)

/-- Map over a validation result. -/
def vmap {α β : Type} (g : α → β) : V α → V β
  | .ok a => .ok (g a)
  | .error es => .error es

/-- Re-root every error of a result under a sub-model path. -/
def mapPath {α : Type} (pre : String) : V α → V α
  | .ok a => .ok a
  | .error es => .error (es.map (FieldErr.nest pre))

/-- The errors of a result (empty when it succeeded). -/
def errsOf {α : Type} : V α → List FieldErr
  | .ok _ => []
  | .error es => es

/-- First-match key lookup in an input mapping (Python dict semantics:
keys are unique, so first match is the match). -/
def lookupField : List (String × Value) → String → Option Value
  | [], _ => none
  | (k, v) :: rest, key => if k = key then some v else lookupField rest key

/-- Field lookup under `populate_by_name=True`: the alias is consulted
first, then the Python field name. -/
def getAliased (m : List (String × Value)) (aliasKey fname : String) : Option Value :=
  match lookupField m aliasKey with
  | some v => some v
  | none => lookupField m fname

/-- A required `str` field (pydantic v2 does not coerce non-strings). -/
def reqStr (m : List (String × Value)) (aliasKey fname : String) : V String :=
  match getAliased m aliasKey fname with
  | some (.str s) => .ok s
  | some _ => .error [.wrongType aliasKey]
  | none => .error [.missing aliasKey]

/-- An optional `str | None = None` field: absent or null yields `none`. -/
def optStr (m : List (String × Value)) (aliasKey fname : String) : V (Option String) :=
  match getAliased m aliasKey fname with
  | none => .ok none
  | some .null => .ok none
  | some (.str s) => .ok (some s)
  | some _ => .error [.wrongType aliasKey]

/-- Nonempty host part right after the `://` of a URL candidate. -/
def hostOk : List Char → Bool
  | [] => false
  | c :: _ => c != '/'

/-- The `HttpUrl` shape check of the pydantic library: an http or https
scheme followed by a nonempty host. -/
def isHttpUrlL : List Char → Bool
  | 'h' :: 't' :: 't' :: 'p' :: ':' :: '/' :: '/' :: rest => hostOk rest
  | 'h' :: 't' :: 't' :: 'p' :: 's' :: ':' :: '/' :: '/' :: rest => hostOk rest
  | _ => false

/-- The observable normalization pydantic's `HttpUrl` applies when a URL is
parsed and re-rendered: a bare authority gains a trailing slash. -/
def urlNormL (cs : List Char) : List Char :=
  match cs with
  | 'h' :: 't' :: 't' :: 'p' :: ':' :: '/' :: '/' :: rest =>
      if rest.contains '/' then cs else cs ++ ['/']
  | 'h' :: 't' :: 't' :: 'p' :: 's' :: ':' :: '/' :: '/' :: rest =>
      if rest.contains '/' then cs else cs ++ ['/']
  | _ => cs

def isHttpUrl (s : String) : Bool := isHttpUrlL s.data

def urlNorm (s : String) : String := String.mk (urlNormL s.data)

/-- An optional `HttpUrl | None = None` field: absent or null yields `none`;
a string is parsed (and normalized) or rejected. -/
def optUrl (m : List (String × Value)) (aliasKey fname : String) : V (Option String) :=
  match getAliased m aliasKey fname with
  | none => .ok none
  | some .null => .ok none
  | some (.str s) => if isHttpUrl s then .ok (some (urlNorm s)) else .error [.invalidUrl aliasKey]
  | some _ => .error [.invalidUrl aliasKey]

/-- One element of a `list[str]` field. -/
def parseStrAt (key : String) (i : Nat) : Value → V String
  | .str s => .ok s
  | _ => .error [.wrongType (key ++ "." ++ toString i)]

/-- All elements of a `list[str]` field, accumulating per-index errors. -/
def strVals (key : String) : List Value → Nat → V (List String)
  | [], _ => .ok []
  | v :: vs, i =>
      vseq (vmap (fun s rest => s :: rest) (parseStrAt key i v)) (strVals key vs (i + 1))

/-- A `list[str] = Field(default_factory=list)` field: absent yields `[]`. -/
def strListF (m : List (String × Value)) (aliasKey fname : String) : V (List String) :=
  match getAliased m aliasKey fname with
  | none => .ok []
  | some (.list vs) => strVals aliasKey vs 0
  | some _ => .error [.wrongType aliasKey]

/-- All elements of a `list[Model]` field, accumulating indexed errors. -/
def subVals {α : Type} (f : Value → V α) (key : String) : List Value → Nat → V (List α)
  | [], _ => .ok []
  | v :: vs, i =>
      vseq (vmap (fun a rest => a :: rest)
              (mapPath (key ++ "." ++ toString i ++ ".") (f v)))
        (subVals f key vs (i + 1))

/-- A `list[Model] = Field(default_factory=list)` field: absent yields `[]`. -/
def subListF {α : Type} (m : List (String × Value)) (key : String) (f : Value → V α) : V (List α) :=
  match lookupField m key with
  | none => .ok []
  | some (.list vs) => subVals f key vs 0
  | some _ => .error [.wrongType key]

/-- An optional `Model | None = None` sub-object field. -/
def optSubF {α : Type} (m : List (String × Value)) (key : String) (f : Value → V α) : V (Option α) :=
  match lookupField m key with
  | none => .ok none
  | some .null => .ok none
  | some v => Except.map some (mapPath (key ++ ".") (f v))

/-- A required `Model` sub-object field. -/
def reqSubF {α : Type} (m : List (String × Value)) (key : String) (f : Value → V α) : V α :=
  match lookupField m key with
  | none => .error [.missing key]
  | some v => mapPath (key ++ ".") (f v)

/-! ## The schema models of `core/models.py` -/

/-- `class Profile(BaseSchema)`: a social-network identity. -/
structure Profile where
  network : String
  username : String
  url : Option String := none
deriving DecidableEq

/-- `class Location(BaseSchema)`: city is the only required field. -/
structure Location where
  address : Option String := none
  postal_code : Option String := none
  city : String
  country_code : Option String := none
  region : Option String := none
deriving DecidableEq

/-- `class Basics(BaseSchema)`: name and email are required plain strings. -/
structure Basics where
  name : String
  label : Option String := none
  email : String
  phone : Option String := none
  url : Option String := none
  summary : Option String := none
  location : Option Location := none
  profiles : List Profile := []
deriving DecidableEq

/-- `class WorkExperience(BaseSchema)`. -/
structure WorkExperience where
  name : String
  position : String
  url : Option String := none
  start_date : String
  end_date : Option String := none
  summary : Option String := none
  highlights : List String := []
  tech_stack : List String := []
deriving DecidableEq

/-- `class Project(BaseSchema)`. -/
structure Project where
  name : String
  description : Option String := none
  highlights : List String := []
  tech_stack : List String := []
  url : Option String := none
  start_date : Option String := none
  end_date : Option String := none
deriving DecidableEq

/-- `class Education(BaseSchema)`. -/
structure Education where
  institution : String
  url : Option String := none
  area : String
  study_type : String
  start_date : String
  end_date : Option String := none
  score : Option String := none
  courses : List String := []
deriving DecidableEq

/-- `class Skill(BaseSchema)`. -/
structure Skill where
  name : String
  level : Option String := none
  keywords : List String := []
deriving DecidableEq

/-- `class MasterProfile(BaseSchema)`: the root aggregate. -/
structure MasterProfile where
  basics : Basics
  work : List WorkExperience := []
  projects : List Project := []
  education : List Education := []
  skills : List Skill := []
deriving DecidableEq

/-! ## Validation (pydantic construction `Model(**data)`) -/

/-- Validation of `Profile` from an untyped mapping. -/
def Profile.fromValue : Value → V Profile
  | .obj m =>
      vseq (vseq (vseq (.ok Profile.mk)
        (reqStr m "network" "network"))
        (reqStr m "username" "username"))
        (optUrl m "url" "url")
  | _ => .error [.wrongType ""]

/-- Validation of `Location` from an untyped mapping. -/
def Location.fromValue : Value → V Location
  | .obj m =>
      vseq (vseq (vseq (vseq (vseq (.ok Location.mk)
        (optStr m "address" "address"))
        (optStr m "postalCode" "postal_code"))
        (reqStr m "city" "city"))
        (optStr m "countryCode" "country_code"))
        (optStr m "region" "region")
  | _ => .error [.wrongType ""]

/-- Validation of `Basics` from an untyped mapping. -/
def Basics.fromValue : Value → V Basics
  | .obj m =>
      vseq (vseq (vseq (vseq (vseq (vseq (vseq (vseq (.ok Basics.mk)
        (reqStr m "name" "name"))
        (optStr m "label" "label"))
        (reqStr m "email" "email"))
        (optStr m "phone" "phone"))
        (optUrl m "url" "url"))
        (optStr m "summary" "summary"))
        (optSubF m "location" Location.fromValue))
        (subListF m "profiles" Profile.fromValue)
  | _ => .error [.wrongType ""]

/-- Validation of `WorkExperience` from an untyped mapping. -/
def WorkExperience.fromValue : Value → V WorkExperience
  | .obj m =>
      vseq (vseq (vseq (vseq (vseq (vseq (vseq (vseq (.ok WorkExperience.mk)
        (reqStr m "name" "name"))
        (reqStr m "position" "position"))
        (optUrl m "url" "url"))
        (reqStr m "startDate" "start_date"))
        (optStr m "endDate" "end_date"))
        (optStr m "summary" "summary"))
        (strListF m "highlights" "highlights"))
        (strListF m "techStack" "tech_stack")
  | _ => .error [.wrongType ""]

/-- Validation of `Project` from an untyped mapping. -/
def Project.fromValue : Value → V Project
  | .obj m =>
      vseq (vseq (vseq (vseq (vseq (vseq (vseq (.ok Project.mk)
        (reqStr m "name" "name"))
        (optStr m "description" "description"))
        (strListF m "highlights" "highlights"))
        (strListF m "techStack" "tech_stack"))
        (optUrl m "url" "url"))
        (optStr m "startDate" "start_date"))
        (optStr m "endDate" "end_date")
  | _ => .error [.wrongType ""]

/-- Validation of `Education` from an untyped mapping. -/
def Education.fromValue : Value → V Education
  | .obj m =>
      vseq (vseq (vseq (vseq (vseq (vseq (vseq (vseq (.ok Education.mk)
        (reqStr m "institution" "institution"))
        (optUrl m "url" "url"))
        (reqStr m "area" "area"))
        (reqStr m "studyType" "study_type"))
        (reqStr m "startDate" "start_date"))
        (optStr m "endDate" "end_date"))
        (optStr m "score" "score"))
        (strListF m "courses" "courses")
  | _ => .error [.wrongType ""]

/-- Validation of `Skill` from an untyped mapping. -/
def Skill.fromValue : Value → V Skill
  | .obj m =>
      vseq (vseq (vseq (.ok Skill.mk)
        (reqStr m "name" "name"))
        (optStr m "level" "level"))
        (strListF m "keywords" "keywords")
  | _ => .error [.wrongType ""]

/-- Validation of `MasterProfile` from an untyped mapping:
`MasterProfile(**data)`. -/
def MasterProfile.fromValue : Value → V MasterProfile
  | .obj m =>
      vseq (vseq (vseq (vseq (vseq (.ok MasterProfile.mk)
        (reqSubF m "basics" Basics.fromValue))
        (subListF m "work" WorkExperience.fromValue))
        (subListF m "projects" Project.fromValue))
        (subListF m "education" Education.fromValue))
        (subListF m "skills" Skill.fromValue)
  | _ => .error [.wrongType ""]

/-! ## Serialization: `model_dump(mode="json", exclude_none=True, by_alias=True)`
as used by `main.py` when writing the profile store (`write_yaml`).  The
PyYAML text layer is an external collaborator that round-trips mappings
faithfully; the repo-side transformation modelled here is the dump to the
aliased, none-dropping mapping. -/

/-- A required string entry. -/
def sEntry (k : String) (s : String) : List (String × Value) := [(k, Value.str s)]

/-- An optional string entry, dropped when `none` (`exclude_none=True`). -/
def oEntry (k : String) : Option String → List (String × Value)
  | none => []
  | some s => [(k, Value.str s)]

/-- A list-of-strings entry (always emitted: empty lists are not `None`). -/
def lEntry (k : String) (xs : List String) : List (String × Value) :=
  [(k, Value.list (xs.map Value.str))]

def Profile.dump (x : Profile) : Value :=
  .obj (sEntry "network" x.network ++ sEntry "username" x.username ++ oEntry "url" x.url)

/-- The dumped field list of a `Location` (kept as a named definition so
that rewriting can treat it atomically). -/
def Location.entries (x : Location) : List (String × Value) :=
  oEntry "address" x.address ++ oEntry "postalCode" x.postal_code ++
    sEntry "city" x.city ++ oEntry "countryCode" x.country_code ++ oEntry "region" x.region

def Location.dump (x : Location) : Value := .obj x.entries

/-- The location entry of a dumped `Basics`, dropped when `none`. -/
def locEntry : Option Location → List (String × Value)
  | none => []
  | some l => [("location", l.dump)]

def Basics.dump (x : Basics) : Value :=
  .obj (sEntry "name" x.name ++ oEntry "label" x.label ++ sEntry "email" x.email ++
    oEntry "phone" x.phone ++ oEntry "url" x.url ++ oEntry "summary" x.summary ++
    locEntry x.location ++ [("profiles", Value.list (x.profiles.map Profile.dump))])

def WorkExperience.dump (x : WorkExperience) : Value :=
  .obj (sEntry "name" x.name ++ sEntry "position" x.position ++ oEntry "url" x.url ++
    sEntry "startDate" x.start_date ++ oEntry "endDate" x.end_date ++
    oEntry "summary" x.summary ++ lEntry "highlights" x.highlights ++
    lEntry "techStack" x.tech_stack)

def Project.dump (x : Project) : Value :=
  .obj (sEntry "name" x.name ++ oEntry "description" x.description ++
    lEntry "highlights" x.highlights ++ lEntry "techStack" x.tech_stack ++
    oEntry "url" x.url ++ oEntry "startDate" x.start_date ++ oEntry "endDate" x.end_date)

def Education.dump (x : Education) : Value :=
  .obj (sEntry "institution" x.institution ++ oEntry "url" x.url ++ sEntry "area" x.area ++
    sEntry "studyType" x.study_type ++ sEntry "startDate" x.start_date ++
    oEntry "endDate" x.end_date ++ oEntry "score" x.score ++ lEntry "courses" x.courses)

def Skill.dump (x : Skill) : Value :=
  .obj (sEntry "name" x.name ++ oEntry "level" x.level ++ lEntry "keywords" x.keywords)

def MasterProfile.dump (p : MasterProfile) : Value :=
  .obj [("basics", p.basics.dump),
        ("work", Value.list (p.work.map WorkExperience.dump)),
        ("projects", Value.list (p.projects.map Project.dump)),
        ("education", Value.list (p.education.map Education.dump)),
        ("skills", Value.list (p.skills.map Skill.dump))]

/-! Well-formedness of a constructed profile: pydantic `HttpUrl` values are
stored in parsed (normalized) form, so a profile produced by validation only
holds normalized URL strings.  These predicates capture exactly that. -/

/-- A stored optional URL is absent or a normalized valid URL. -/
def urlWfB : Option String → Bool
  | none => true
  | some u => isHttpUrl u && (urlNorm u == u)

def Profile.wfB (x : Profile) : Bool := urlWfB x.url

def Basics.wfB (x : Basics) : Bool := urlWfB x.url && x.profiles.all Profile.wfB

def WorkExperience.wfB (x : WorkExperience) : Bool := urlWfB x.url

def Project.wfB (x : Project) : Bool := urlWfB x.url

def Education.wfB (x : Education) : Bool := urlWfB x.url

def MasterProfile.wfB (p : MasterProfile) : Bool :=
  p.basics.wfB && p.work.all WorkExperience.wfB && p.projects.all Project.wfB &&
    p.education.all Education.wfB

/-! ## `utils/file_io.py`: document text extraction -/

/-- Failure of `extract_text_from_file`: the `ValueError("Unsupported file
format: ...")` raised for an unrecognized file suffix. -/
inductive ExtractErr where
  | unsupported (sfx : String)
deriving DecidableEq

/-- The external readers `extract_text_from_file` delegates to: the pypdf
page extractor, the python-docx paragraph extractor, and `Path.read_text`. -/
structure FileReaders where
  pdf : String → String
  docx : String → String
  text : String → String

/-- ASCII lowercasing, `str.lower()` on the suffixes involved here
(char-by-char `Char.toLower`). -/
def toLowerStr (s : String) : String := String.mk (s.data.map Char.toLower)

/-- The last path component (Python `Path(path).name`): everything after
the final slash. -/
def lastComponent (cs : List Char) : List Char :=
  (cs.reverse.takeWhile (fun c => c != '/')).reverse

/-- Python `pathlib.Path(path).suffix`: the final dot-suffix of the last
path component; empty when the name has no interior dot (`0 < i < len-1`
on the position of the last dot, as in CPython's `PurePath.suffix`). -/
def suffixOf (path : String) : String :=
  let cs := lastComponent path.data
  let afterRev := cs.reverse.takeWhile (fun c => c != '.')
  if 0 < afterRev.length && afterRev.length + 1 < cs.length then
    String.mk ('.' :: afterRev.reverse)
  else ""

/-- `extract_text_from_file`: dispatch on the lowercased suffix; PDF and
Docx go to their readers, `.txt`/`.md` are read as text, anything else
raises the unsupported-format error without touching the file. -/
def extract_text_from_file (r : FileReaders) (path : String) : Except ExtractErr String :=
  let sfx := toLowerStr (suffixOf path)
  if sfx = ".pdf" then .ok (r.pdf path)
  else if sfx = ".docx" then .ok (r.docx path)
  else if sfx = ".txt" || sfx = ".md" then .ok (r.text path)
  else .error (.unsupported sfx)

/-! ## `ai/agent.py`: the LLM-backed merge -/

/-- The outcome of `_get_completion` for a merge request: either a failure
(transport error, no choices, empty content, unparseable JSON) or the parsed
JSON payload returned by the model. -/
inductive LLMOutcome where
  | failure (msg : String)
  | payload (v : Value)

/-- Errors of `ResumeAgent.merge_profile`. -/
inductive MergeError where
  | generationFailure (msg : String)
  | invalidProfile (errs : List FieldErr)
deriving DecidableEq

/-- `ResumeAgent.merge_profile(current_profile, new_text, images)`: the
current profile and new text are only embedded into the prompt (abstracted
into the oracle `outcome`); the function then validates the model's payload
with `MasterProfile(**merged_data)` and returns it.  The first component of
the result is the value of `current_profile` after the call: the source
never assigns into it, so it is returned unchanged. -/
def merge_profile (current : MasterProfile) (new_text : String) (outcome : LLMOutcome) :
    MasterProfile × Except MergeError MasterProfile :=
  match outcome with
  | .failure m => (current, .error (.generationFailure m))
  | .payload v =>
      match MasterProfile.fromValue v with
      | .ok merged => (current, .ok merged)
      | .error es => (current, .error (.invalidProfile es))

/-! ## `main.py update`: the store-level flow around the merge -/

/-- Terminal outcome of the `update` command. -/
inductive UpdateOutcome where
  | invalidExisting (errs : List FieldErr)
  | extractionFailed (e : ExtractErr)
  | aiFailed (e : MergeError)
  | cancelled
  | applied
deriving DecidableEq

/-- The `update` command of `main.py`, as a function of the stored profile
mapping, the file being merged in, the LLM oracle, and the user's
confirmation answer.  It returns the stored mapping after the command and
the outcome.  Steps in source order: (1) load and validate the existing
profile, aborting on failure; (2) extract text from the new file, aborting
on failure; (3) merge via the agent, aborting on failure; (4) on success,
write the merged profile's dump only if the user confirms. -/
def update_command (stored : Value) (r : FileReaders) (path : String)
    (outcome : LLMOutcome) (confirm : Bool) : Value × UpdateOutcome :=
  match MasterProfile.fromValue stored with
  | .error es => (stored, .invalidExisting es)
  | .ok current =>
      match extract_text_from_file r path with
      | .error e => (stored, .extractionFailed e)
      | .ok text =>
          match (merge_profile current text outcome).2 with
          | .error e => (stored, .aiFailed e)
          | .ok merged =>
              if confirm then (merged.dump, .applied) else (stored, .cancelled)

/-! ## Content-superset predicate (the property claimed of the merge) -/

/-- All highlight strings of a profile (work entries then projects). -/
def profHighlights (p : MasterProfile) : List String :=
  (p.work.map WorkExperience.highlights).foldr (· ++ ·) [] ++
    (p.projects.map Project.highlights).foldr (· ++ ·) []

/-- All course strings of a profile. -/
def profCourses (p : MasterProfile) : List String :=
  (p.education.map Education.courses).foldr (· ++ ·) []

/-- All tech-stack terms of a profile (work entries then projects). -/
def profTech (p : MasterProfile) : List String :=
  (p.work.map WorkExperience.tech_stack).foldr (· ++ ·) [] ++
    (p.projects.map Project.tech_stack).foldr (· ++ ·) []

/-- All skill keywords of a profile. -/
def profKeywords (p : MasterProfile) : List String :=
  (p.skills.map Skill.keywords).foldr (· ++ ·) []

/-- Case-insensitive membership of a term in a list of terms. -/
def memCI (x : String) (xs : List String) : Bool :=
  xs.any (fun y => toLowerStr x == toLowerStr y)

/-- `q` is a content superset of `p`: every highlight and course of `p`
occurs in `q`, and every tech-stack term and keyword of `p` occurs in `q`
up to case. -/
def contentSuperset (q p : MasterProfile) : Bool :=
  (profHighlights p).all (fun h => (profHighlights q).contains h) &&
  (profCourses p).all (fun h => (profCourses q).contains h) &&
  (profTech p).all (fun t => memCI t (profTech q)) &&
  (profKeywords p).all (fun t => memCI t (profKeywords q))

deriving instance DecidableEq for Except

/-! ## Helper lemmas about error accumulation -/

theorem errsOf_vseq {α β : Type} (f : V (α → β)) (a : V α) :
    errsOf (vseq f a) = errsOf f ++ errsOf a := by
  cases f <;> cases a <;> simp [vseq, errsOf]

theorem errsOf_mapPath {α : Type} (pre : String) (r : V α) :
    errsOf (mapPath pre r) = (errsOf r).map (FieldErr.nest pre) := by
  cases r <;> simp [mapPath, errsOf]

theorem errsOf_exceptMap {α β : Type} (g : α → β) (r : V α) :
    errsOf (Except.map g r) = errsOf r := by
  cases r <;> simp [Except.map, errsOf]

theorem v_error_of_errs {α : Type} (r : V α) (h : errsOf r ≠ []) :
    r = .error (errsOf r) := by
  cases r with
  | ok a => simp [errsOf] at h
  | error es => rfl

theorem mem_errsOf_vseq_left {α β : Type} {f : V (α → β)} {a : V α} {x : FieldErr}
    (h : x ∈ errsOf f) : x ∈ errsOf (vseq f a) := by
  rw [errsOf_vseq]; exact List.mem_append_left _ h

theorem mem_errsOf_vseq_right {α β : Type} {f : V (α → β)} {a : V α} {x : FieldErr}
    (h : x ∈ errsOf a) : x ∈ errsOf (vseq f a) := by
  rw [errsOf_vseq]; exact List.mem_append_right _ h

theorem mem_errsOf_mapPath {α : Type} (pre : String) {r : V α} {x : FieldErr}
    (h : x ∈ errsOf r) : FieldErr.nest pre x ∈ errsOf (mapPath pre r) := by
  rw [errsOf_mapPath]; exact List.mem_map_of_mem _ h

/-! ## C3: end-date normalization -/

/-- C3: the claim is false on the code.  `WorkExperience` applies no
normalization to end-date fields: the sentinel `"Present"` is not mapped to
null but stored verbatim, and the unparseable `"banana"` does not raise any
error — it is also stored verbatim.  (`models.py` declares
`end_date: str | None` with no validator.) -/
theorem c3_counterexample :
    WorkExperience.fromValue (.obj [("name", .str "Acme"), ("position", .str "Eng"),
      ("startDate", .str "2020-01"), ("endDate", .str "Present")]) =
      .ok ⟨"Acme", "Eng", none, "2020-01", some "Present", none, [], []⟩ ∧
    WorkExperience.fromValue (.obj [("name", .str "Acme"), ("position", .str "Eng"),
      ("startDate", .str "2020-01"), ("endDate", .str "banana")]) =
      .ok ⟨"Acme", "Eng", none, "2020-01", some "banana", none, [], []⟩ := ⟨rfl, rfl⟩

/-- C3 (amended): the schema model performs no end-date normalization at
all: any string supplied for `endDate` — sentinel words, recognized date
forms, or unparseable text alike — is accepted and stored verbatim, and no
`NormalizationError` exists; date canonicalization is only requested of the
extraction collaborator in prompt text and is unenforced. -/
theorem c3_amended (n p d s : String) :
    WorkExperience.fromValue (.obj [("name", .str n), ("position", .str p),
      ("startDate", .str d), ("endDate", .str s)]) =
      .ok ⟨n, p, none, d, some s, none, [], []⟩ := by
  simp [WorkExperience.fromValue, reqStr, optStr, optUrl, strListF, getAliased,
    lookupField, vseq]

/-! ## C4: required basics fields -/

/-- C4: the claim is false on the code.  `Basics` declares `name: str` and
`email: str` with no further constraint, so construction succeeds with an
empty name and with an email that is not syntactically valid (it contains
no `@` at all). -/
theorem c4_counterexample :
    MasterProfile.fromValue
      (.obj [("basics", .obj [("name", .str ""), ("email", .str "not-an-email")])]) =
      .ok ⟨⟨"", none, "not-an-email", none, none, none, none, []⟩, [], [], [], []⟩ ∧
    ("not-an-email".data.contains '@') = false := ⟨rfl, by decide⟩

/-- C4 (amended): `basics.name` and `basics.email` are required: a mapping
whose basics lacks the email key fails construction with an error naming
`basics.email`; but no syntactic email validation and no non-emptiness
check is applied — any string, the empty string included, is accepted
verbatim for both fields. -/
theorem c4_amended :
    (∀ bm : List (String × Value), lookupField bm "email" = none →
      ∃ es, MasterProfile.fromValue (.obj [("basics", .obj bm)]) = .error es ∧
        FieldErr.missing "basics.email" ∈ es) ∧
    (∀ n e : String,
      Basics.fromValue (.obj [("name", .str n), ("email", .str e)]) =
        .ok ⟨n, none, e, none, none, none, none, []⟩) := by
  constructor
  · intro bm h
    have hreq : reqStr bm "email" "email" = .error [.missing "email"] := by
      simp [reqStr, getAliased, h]
    have hBmem : FieldErr.missing "email" ∈ errsOf (Basics.fromValue (.obj bm)) := by
      show FieldErr.missing "email" ∈ errsOf (vseq (vseq (vseq (vseq (vseq (vseq (vseq (vseq
        (.ok Basics.mk) (reqStr bm "name" "name")) (optStr bm "label" "label"))
        (reqStr bm "email" "email")) (optStr bm "phone" "phone")) (optUrl bm "url" "url"))
        (optStr bm "summary" "summary")) (optSubF bm "location" Location.fromValue))
        (subListF bm "profiles" Profile.fromValue))
      exact mem_errsOf_vseq_left (mem_errsOf_vseq_left (mem_errsOf_vseq_left
        (mem_errsOf_vseq_left (mem_errsOf_vseq_left (mem_errsOf_vseq_right
          (by rw [hreq]; exact List.mem_singleton.mpr rfl))))))
    have hsub : errsOf (reqSubF [("basics", Value.obj bm)] "basics" Basics.fromValue) =
        (errsOf (Basics.fromValue (.obj bm))).map (FieldErr.nest "basics.") := by
      simp [reqSubF, lookupField, errsOf_mapPath]
    have hMmem : FieldErr.missing "basics.email" ∈
        errsOf (MasterProfile.fromValue (.obj [("basics", .obj bm)])) := by
      show FieldErr.missing "basics.email" ∈ errsOf (vseq (vseq (vseq (vseq (vseq
        (.ok MasterProfile.mk)
        (reqSubF [("basics", Value.obj bm)] "basics" Basics.fromValue))
        (subListF [("basics", Value.obj bm)] "work" WorkExperience.fromValue))
        (subListF [("basics", Value.obj bm)] "projects" Project.fromValue))
        (subListF [("basics", Value.obj bm)] "education" Education.fromValue))
        (subListF [("basics", Value.obj bm)] "skills" Skill.fromValue))
      refine mem_errsOf_vseq_left (mem_errsOf_vseq_left (mem_errsOf_vseq_left
        (mem_errsOf_vseq_left (mem_errsOf_vseq_right ?_))))
      rw [hsub]
      have := List.mem_map_of_mem (FieldErr.nest "basics.") hBmem
      simpa [FieldErr.nest] using this
    exact ⟨_, v_error_of_errs _ (List.ne_nil_of_mem hMmem), hMmem⟩
  · intro n e
    simp [Basics.fromValue, reqStr, optStr, optUrl, optSubF, subListF, getAliased,
      lookupField, vseq]

/-- C4 witness: at a concrete basics mapping lacking email, construction
fails naming `basics.email`, and a concrete name/email pair is accepted
verbatim. -/
theorem c4_witness :
    (∃ es, MasterProfile.fromValue (.obj [("basics", .obj [("name", .str "Jane")])]) =
        .error es ∧ FieldErr.missing "basics.email" ∈ es) ∧
    Basics.fromValue (.obj [("name", .str "Jane"), ("email", .str "jane@x.com")]) =
      .ok ⟨"Jane", none, "jane@x.com", none, none, none, none, []⟩ :=
  ⟨c4_amended.1 [("name", .str "Jane")] rfl, c4_amended.2 "Jane" "jane@x.com"⟩

/-! ## C9: location requires a city -/

/-- C9: a `basics.location` sub-mapping must contain a city: construction
of the profile fails with an error naming `basics.location.city` whenever
the location mapping lacks the city key; city is the only required
`Location` subfield — address, postalCode, countryCode and region are all
optional and accepted either absent or present. -/
theorem c9_location_city_required :
    (∀ (bm lm : List (String × Value)),
      lookupField bm "location" = some (.obj lm) → lookupField lm "city" = none →
      ∃ es, MasterProfile.fromValue (.obj [("basics", .obj bm)]) = .error es ∧
        FieldErr.missing "basics.location.city" ∈ es) ∧
    (∀ c : String, Location.fromValue (.obj [("city", .str c)]) =
        .ok ⟨none, none, c, none, none⟩) ∧
    (∀ c a pc cc rg : String,
      Location.fromValue (.obj [("address", .str a), ("postalCode", .str pc),
        ("city", .str c), ("countryCode", .str cc), ("region", .str rg)]) =
        .ok ⟨some a, some pc, c, some cc, some rg⟩) := by
  refine ⟨?_, ?_, ?_⟩
  · intro bm lm hloc hcity
    have hreq : reqStr lm "city" "city" = .error [.missing "city"] := by
      simp [reqStr, getAliased, hcity]
    have hLmem : FieldErr.missing "city" ∈ errsOf (Location.fromValue (.obj lm)) := by
      show FieldErr.missing "city" ∈ errsOf (vseq (vseq (vseq (vseq (vseq
        (.ok Location.mk) (optStr lm "address" "address"))
        (optStr lm "postalCode" "postal_code")) (reqStr lm "city" "city"))
        (optStr lm "countryCode" "country_code")) (optStr lm "region" "region"))
      exact mem_errsOf_vseq_left (mem_errsOf_vseq_left (mem_errsOf_vseq_right
        (by rw [hreq]; exact List.mem_singleton.mpr rfl)))
    have hopt : errsOf (optSubF bm "location" Location.fromValue) =
        (errsOf (Location.fromValue (.obj lm))).map (FieldErr.nest "location.") := by
      simp [optSubF, hloc, errsOf_exceptMap, errsOf_mapPath]
    have hBmem : FieldErr.missing "location.city" ∈ errsOf (Basics.fromValue (.obj bm)) := by
      show FieldErr.missing "location.city" ∈ errsOf (vseq (vseq (vseq (vseq (vseq (vseq
        (vseq (vseq (.ok Basics.mk) (reqStr bm "name" "name")) (optStr bm "label" "label"))
        (reqStr bm "email" "email")) (optStr bm "phone" "phone")) (optUrl bm "url" "url"))
        (optStr bm "summary" "summary")) (optSubF bm "location" Location.fromValue))
        (subListF bm "profiles" Profile.fromValue))
      refine mem_errsOf_vseq_left (mem_errsOf_vseq_right ?_)
      rw [hopt]
      have := List.mem_map_of_mem (FieldErr.nest "location.") hLmem
      simpa [FieldErr.nest] using this
    have hsub : errsOf (reqSubF [("basics", Value.obj bm)] "basics" Basics.fromValue) =
        (errsOf (Basics.fromValue (.obj bm))).map (FieldErr.nest "basics.") := by
      simp [reqSubF, lookupField, errsOf_mapPath]
    have hMmem : FieldErr.missing "basics.location.city" ∈
        errsOf (MasterProfile.fromValue (.obj [("basics", .obj bm)])) := by
      show FieldErr.missing "basics.location.city" ∈ errsOf (vseq (vseq (vseq (vseq (vseq
        (.ok MasterProfile.mk)
        (reqSubF [("basics", Value.obj bm)] "basics" Basics.fromValue))
        (subListF [("basics", Value.obj bm)] "work" WorkExperience.fromValue))
        (subListF [("basics", Value.obj bm)] "projects" Project.fromValue))
        (subListF [("basics", Value.obj bm)] "education" Education.fromValue))
        (subListF [("basics", Value.obj bm)] "skills" Skill.fromValue))
      refine mem_errsOf_vseq_left (mem_errsOf_vseq_left (mem_errsOf_vseq_left
        (mem_errsOf_vseq_left (mem_errsOf_vseq_right ?_))))
      rw [hsub]
      have := List.mem_map_of_mem (FieldErr.nest "basics.") hBmem
      simpa [FieldErr.nest] using this
    exact ⟨_, v_error_of_errs _ (List.ne_nil_of_mem hMmem), hMmem⟩
  · intro c
    simp [Location.fromValue, reqStr, optStr, getAliased, lookupField, vseq]
  · intro c a pc cc rg
    simp [Location.fromValue, reqStr, optStr, getAliased, lookupField, vseq]

/-- C9 witness: a concrete location mapping without a city is rejected
naming `basics.location.city`; concrete city-only and all-fields locations
are accepted. -/
theorem c9_witness :
    (∃ es, MasterProfile.fromValue (.obj [("basics", .obj [("name", .str "Jane"),
        ("email", .str "jane@x.com"),
        ("location", .obj [("region", .str "CA")])])]) = .error es ∧
      FieldErr.missing "basics.location.city" ∈ es) ∧
    Location.fromValue (.obj [("city", .str "San Francisco")]) =
      .ok ⟨none, none, "San Francisco", none, none⟩ ∧
    Location.fromValue (.obj [("address", .str "1 Main St"), ("postalCode", .str "94101"),
      ("city", .str "San Francisco"), ("countryCode", .str "US"), ("region", .str "CA")]) =
      .ok ⟨some "1 Main St", some "94101", "San Francisco", some "US", some "CA"⟩ :=
  ⟨c9_location_city_required.1 [("name", .str "Jane"), ("email", .str "jane@x.com"),
      ("location", .obj [("region", .str "CA")])] [("region", .str "CA")] rfl rfl,
    c9_location_city_required.2.1 "San Francisco",
    c9_location_city_required.2.2 "San Francisco" "1 Main St" "94101" "US" "CA"⟩

/-! ## C10: omitted category keys default to empty lists -/

/-- C10: a mapping containing only a basics entry that validates — with the
work, projects, education and skills keys all absent — constructs a
`MasterProfile` whose four category fields are all the empty list
(pydantic `Field(default_factory=list)`). -/
theorem c10_defaults_empty (bv : Value) (b : Basics)
    (hb : Basics.fromValue bv = .ok b) :
    MasterProfile.fromValue (.obj [("basics", bv)]) = .ok ⟨b, [], [], [], []⟩ := by
  simp [MasterProfile.fromValue, reqSubF, subListF, lookupField, mapPath, hb, vseq]

/-- C10 witness: concrete basics-only payload. -/
theorem c10_witness :
    MasterProfile.fromValue (.obj [("basics", .obj [("name", .str "Jane Doe"),
      ("email", .str "jane@x.com")])]) =
      .ok ⟨⟨"Jane Doe", none, "jane@x.com", none, none, none, none, []⟩, [], [], [], []⟩ :=
  c10_defaults_empty _ _ rfl

/-! ## C5: alias tolerance and unknown-field tolerance -/

/-- C5: entity construction ignores unknown fields rather than rejecting
them, and each aliased field is accepted interchangeably under its
machine-friendly name or its presentation alias with the same result:
shown for `startDate`/`start_date` and `techStack`/`tech_stack` on
`WorkExperience`, `studyType`/`study_type` on `Education`, and an
arbitrary unrecognized key on `WorkExperience`. -/
theorem c5_alias_and_unknown :
    (∀ (m : List (String × Value)) (v : Value),
      lookupField m "startDate" = none → lookupField m "start_date" = none →
      WorkExperience.fromValue (.obj (("startDate", v) :: m)) =
        WorkExperience.fromValue (.obj (("start_date", v) :: m))) ∧
    (∀ (m : List (String × Value)) (v : Value),
      lookupField m "techStack" = none → lookupField m "tech_stack" = none →
      WorkExperience.fromValue (.obj (("techStack", v) :: m)) =
        WorkExperience.fromValue (.obj (("tech_stack", v) :: m))) ∧
    (∀ (m : List (String × Value)) (v : Value),
      lookupField m "studyType" = none → lookupField m "study_type" = none →
      Education.fromValue (.obj (("studyType", v) :: m)) =
        Education.fromValue (.obj (("study_type", v) :: m))) ∧
    (∀ (m : List (String × Value)) (k : String) (v : Value),
      k ∉ ["name", "position", "url", "startDate", "start_date", "endDate", "end_date",
        "summary", "highlights", "techStack", "tech_stack"] →
      WorkExperience.fromValue (.obj ((k, v) :: m)) = WorkExperience.fromValue (.obj m)) := by
  refine ⟨?_, ?_, ?_, ?_⟩
  · intro m v h1 h2
    simp [WorkExperience.fromValue, reqStr, optStr, optUrl, strListF, getAliased,
      lookupField, h1, h2]
  · intro m v h1 h2
    simp [WorkExperience.fromValue, reqStr, optStr, optUrl, strListF, getAliased,
      lookupField, h1, h2]
  · intro m v h1 h2
    simp [Education.fromValue, reqStr, optStr, optUrl, strListF, getAliased,
      lookupField, h1, h2]
  · intro m k v hk
    simp only [List.mem_cons, List.mem_singleton, not_or] at hk
    obtain ⟨h1, h2, h3, h4, h5, h6, h7, h8, h9, h10, h11⟩ := hk
    simp [WorkExperience.fromValue, reqStr, optStr, optUrl, strListF, getAliased,
      lookupField, h1, h2, h3, h4, h5, h6, h7, h8, h9, h10, h11]

/-- C5 witness: concrete instances of each conjunct. -/
theorem c5_witness :
    WorkExperience.fromValue (.obj [("startDate", .str "2020-01"), ("name", .str "Acme"),
      ("position", .str "Eng")]) =
      WorkExperience.fromValue (.obj [("start_date", .str "2020-01"), ("name", .str "Acme"),
        ("position", .str "Eng")]) ∧
    WorkExperience.fromValue (.obj [("techStack", .list [.str "Python"]), ("name", .str "Acme"),
      ("position", .str "Eng"), ("startDate", .str "2020-01")]) =
      WorkExperience.fromValue (.obj [("tech_stack", .list [.str "Python"]), ("name", .str "Acme"),
        ("position", .str "Eng"), ("startDate", .str "2020-01")]) ∧
    Education.fromValue (.obj [("studyType", .str "Bachelor"), ("institution", .str "Uni"),
      ("area", .str "CS"), ("startDate", .str "2015-09")]) =
      Education.fromValue (.obj [("study_type", .str "Bachelor"), ("institution", .str "Uni"),
        ("area", .str "CS"), ("startDate", .str "2015-09")]) ∧
    WorkExperience.fromValue (.obj [("futureField", .str "ignored"), ("name", .str "Acme"),
      ("position", .str "Eng"), ("startDate", .str "2020-01")]) =
      WorkExperience.fromValue (.obj [("name", .str "Acme"), ("position", .str "Eng"),
        ("startDate", .str "2020-01")]) :=
  ⟨c5_alias_and_unknown.1 [("name", .str "Acme"), ("position", .str "Eng")] _ rfl rfl,
   c5_alias_and_unknown.2.1 [("name", .str "Acme"), ("position", .str "Eng"),
     ("startDate", .str "2020-01")] _ rfl rfl,
   c5_alias_and_unknown.2.2.1 [("institution", .str "Uni"), ("area", .str "CS"),
     ("startDate", .str "2015-09")] _ rfl rfl,
   c5_alias_and_unknown.2.2.2 [("name", .str "Acme"), ("position", .str "Eng"),
     ("startDate", .str "2020-01")] "futureField" _ (by decide)⟩

/-! ## C7: document text extraction dispatch -/

/-- C7: `extract_text_from_file` succeeds for plain text (`.txt`, and also
`.md`) and for the two rich formats PDF and Docx, dispatching on the
lowercased file suffix; for a file of any other suffix it fails with the
unsupported-format error without consulting any reader. -/
theorem c7_extractor :
    (∀ (r : FileReaders) (path : String),
      toLowerStr (suffixOf path) ∉ [".pdf", ".docx", ".txt", ".md"] →
      extract_text_from_file r path = .error (.unsupported (toLowerStr (suffixOf path)))) ∧
    (∀ (r : FileReaders) (path : String), toLowerStr (suffixOf path) = ".pdf" →
      extract_text_from_file r path = .ok (r.pdf path)) ∧
    (∀ (r : FileReaders) (path : String), toLowerStr (suffixOf path) = ".docx" →
      extract_text_from_file r path = .ok (r.docx path)) ∧
    (∀ (r : FileReaders) (path : String),
      toLowerStr (suffixOf path) = ".txt" ∨ toLowerStr (suffixOf path) = ".md" →
      extract_text_from_file r path = .ok (r.text path)) := by
  refine ⟨?_, ?_, ?_, ?_⟩
  · intro r path h
    simp only [List.mem_cons, List.mem_singleton, not_or] at h
    obtain ⟨h1, h2, h3, h4⟩ := h
    simp [extract_text_from_file, h1, h2, h3, h4]
  · intro r path h
    simp [extract_text_from_file, h]
  · intro r path h
    simp [extract_text_from_file, h]
  · intro r path h
    rcases h with h | h <;> simp [extract_text_from_file, h]

/-- Concrete readers standing for the external pypdf / python-docx /
`Path.read_text` collaborators in witnesses. -/
def sampleReaders : FileReaders :=
  ⟨fun _ => "pdf text", fun _ => "docx text", fun _ => "plain text"⟩

/-- C7 witness: concrete dispatches, including case-insensitivity of the
suffix and the failure on an unrecognized format. -/
theorem c7_witness :
    extract_text_from_file sampleReaders "old-stuff.xyz" = .error (.unsupported ".xyz") ∧
    extract_text_from_file sampleReaders "resume.PDF" = .ok (sampleReaders.pdf "resume.PDF") ∧
    extract_text_from_file sampleReaders "dir/cv.docx" = .ok (sampleReaders.docx "dir/cv.docx") ∧
    extract_text_from_file sampleReaders "notes.txt" = .ok (sampleReaders.text "notes.txt") ∧
    extract_text_from_file sampleReaders "readme.md" = .ok (sampleReaders.text "readme.md") :=
  ⟨c7_extractor.1 sampleReaders "old-stuff.xyz" (by decide),
   c7_extractor.2.1 sampleReaders "resume.PDF" (by decide),
   c7_extractor.2.2.1 sampleReaders "dir/cv.docx" (by decide),
   c7_extractor.2.2.2 sampleReaders "notes.txt" (Or.inl (by decide)),
   c7_extractor.2.2.2 sampleReaders "readme.md" (Or.inr (by decide))⟩

/-! ## Shared sample profiles for the merge claims -/

/-- A one-entry profile: one work experience with a highlight and a
tech-stack term. -/
def sampleA : MasterProfile :=
  ⟨⟨"Ann", none, "ann@x.com", none, none, none, none, []⟩,
   [⟨"Acme", "Eng", none, "2020-01", none, none, ["Shipped X"], ["Python"]⟩],
   [], [], []⟩

/-- A basics-only profile (no work, projects, education or skills). -/
def minimalProfile : MasterProfile :=
  ⟨⟨"Ann", none, "ann@x.com", none, none, none, none, []⟩, [], [], [], []⟩

/-! ## C1: merge superset -/

/-- C1: the claim is false on the code.  `merge_profile` performs no merge
computation of its own: it forwards both inputs to the LLM inside a prompt
and returns whatever payload the model sends back, validated against the
schema only.  Here the model answers with a schema-valid basics-only
profile, the call succeeds, and the result drops the highlight
`"Shipped X"` and the tech term `"Python"` present in the existing
profile — it is not a content superset of the inputs. -/
theorem c1_counterexample :
    (merge_profile sampleA "new resume text" (.payload (MasterProfile.dump minimalProfile))).2 =
      .ok minimalProfile ∧
    contentSuperset minimalProfile sampleA = false := ⟨rfl, rfl⟩

/-- C1 (amended): the merge result is a content superset of the existing
profile A and of any candidate profile B exactly as far as the
collaborator's payload is: whenever the payload validates to a profile
that is a content superset of A and of B, the merge succeeds and its
result is a content superset of both; the code itself adds no superset
enforcement beyond schema validation of the payload. -/
theorem c1_amended (A B merged : MasterProfile) (t : String) (v : Value)
    (hv : MasterProfile.fromValue v = .ok merged)
    (hA : contentSuperset merged A = true) (hB : contentSuperset merged B = true) :
    ∃ res, (merge_profile A t (.payload v)).2 = .ok res ∧
      contentSuperset res A = true ∧ contentSuperset res B = true := by
  refine ⟨merged, ?_, hA, hB⟩
  simp [merge_profile, hv]

/-- C1 witness: with a collaborator payload that is a superset of both
inputs, the merge result is a superset of both. -/
theorem c1_witness :
    ∃ res, (merge_profile minimalProfile "resume text" (.payload (MasterProfile.dump sampleA))).2 =
        .ok res ∧
      contentSuperset res minimalProfile = true ∧ contentSuperset res minimalProfile = true :=
  c1_amended minimalProfile minimalProfile sampleA "resume text" (MasterProfile.dump sampleA)
    rfl (by decide) (by decide)

/-! ## C2: merge idempotence -/

/-- C2: the claim is false on the code.  merge(A, A) is whatever the LLM
returns: merging `sampleA` with (the text of) itself can yield a profile
different from `sampleA` whenever the model's payload differs, and the
code performs no comparison or deduplication of its own. -/
theorem c2_counterexample :
    (merge_profile sampleA "the same resume, textually" (.payload (MasterProfile.dump minimalProfile))).2 =
      .ok minimalProfile ∧
    minimalProfile ≠ sampleA := ⟨rfl, by decide⟩

/-- C2 (amended): merge(A, A) equals A precisely when the collaborator
returns A itself: if the payload validates back to A, the merge returns A
unchanged (and the input profile object is also left unchanged). -/
theorem c2_amended (A : MasterProfile) (t : String) (v : Value)
    (hv : MasterProfile.fromValue v = .ok A) :
    (merge_profile A t (.payload v)).2 = .ok A ∧ (merge_profile A t (.payload v)).1 = A := by
  simp [merge_profile, hv]

/-- C2 witness: the concrete self-merge in which the collaborator echoes
the profile back. -/
theorem c2_witness :
    (merge_profile sampleA "resume text of sampleA" (.payload (MasterProfile.dump sampleA))).2 =
      .ok sampleA ∧
    (merge_profile sampleA "resume text of sampleA" (.payload (MasterProfile.dump sampleA))).1 =
      sampleA :=
  c2_amended sampleA "resume text of sampleA" (MasterProfile.dump sampleA) rfl

/-! ## C6: frame and atomicity of the merge -/

/-- C6: the merge never mutates its inputs and is atomic around
validation failures.  (1) `merge_profile` returns the existing profile
value unchanged in every outcome (the source never assigns into
`current_profile`).  (2) In the `update` command, any outcome other than
a confirmed successful merge leaves the stored profile exactly as it was.
(3) When the stored profile fails schema validation, the command aborts
before any extraction or merge: the outcome is `invalidExisting`, the
store is untouched, and the result does not depend on the LLM oracle at
all.  (4) When the collaborator payload fails schema validation, the
merge signals `invalidProfile` with the validation errors. -/
theorem c6_merge_frame (c : MasterProfile) (t : String) (o : LLMOutcome)
    (stored : Value) (r : FileReaders) (path : String) (confirm : Bool) :
    (merge_profile c t o).1 = c ∧
    ((update_command stored r path o confirm).2 ≠ UpdateOutcome.applied →
      (update_command stored r path o confirm).1 = stored) ∧
    (∀ es, MasterProfile.fromValue stored = .error es →
      update_command stored r path o confirm = (stored, .invalidExisting es) ∧
      ∀ o2, update_command stored r path o2 confirm = update_command stored r path o confirm) ∧
    (∀ v es, MasterProfile.fromValue v = .error es →
      (merge_profile c t (.payload v)).2 = .error (.invalidProfile es)) := by
  refine ⟨?_, ?_, ?_, ?_⟩
  · cases o with
    | failure m => rfl
    | payload v =>
        simp only [merge_profile]
        cases MasterProfile.fromValue v <;> rfl
  · intro hne
    unfold update_command at hne ⊢
    cases hcur : MasterProfile.fromValue stored with
    | error es => simp [hcur]
    | ok current =>
        simp only [hcur]
        cases hext : extract_text_from_file r path with
        | error e => simp
        | ok text =>
            simp only
            cases hm : (merge_profile current text o).2 with
            | error e => simp
            | ok merged =>
                simp only [hcur, hext, hm] at hne
                cases confirm with
                | true => simp at hne
                | false => simp
  · intro es hes
    unfold update_command
    simp [hes]
  · intro v es hes
    simp [merge_profile, hes]

/-- C6 witness: concrete instances — a failure outcome leaves the current
profile value intact; an invalid stored mapping aborts the update with the
store untouched regardless of the oracle; an invalid payload is signalled. -/
theorem c6_witness :
    (merge_profile sampleA "txt" (.failure "transport down")).1 = sampleA ∧
    ((update_command Value.null sampleReaders "cv.txt" (.failure "transport down") true).2 ≠
        UpdateOutcome.applied →
      (update_command Value.null sampleReaders "cv.txt" (.failure "transport down") true).1 =
        Value.null) ∧
    (update_command Value.null sampleReaders "cv.txt" (.failure "transport down") true =
      (Value.null, .invalidExisting [.wrongType ""]) ∧
      ∀ o2, update_command Value.null sampleReaders "cv.txt" o2 true =
        update_command Value.null sampleReaders "cv.txt" (.failure "transport down") true) ∧
    (merge_profile sampleA "txt" (.payload Value.null)).2 =
      .error (.invalidProfile [.wrongType ""]) :=
  ⟨(c6_merge_frame sampleA "txt" (.failure "transport down") Value.null sampleReaders
      "cv.txt" true).1,
   (c6_merge_frame sampleA "txt" (.failure "transport down") Value.null sampleReaders
      "cv.txt" true).2.1,
   (c6_merge_frame sampleA "txt" (.failure "transport down") Value.null sampleReaders
      "cv.txt" true).2.2.1 [.wrongType ""] rfl,
   (c6_merge_frame sampleA "txt" (.failure "transport down") Value.null sampleReaders
      "cv.txt" true).2.2.2 Value.null [.wrongType ""] rfl⟩

/-! ## C8: store round-trip -/

theorem strVals_map (key : String) (xs : List String) :
    ∀ i, strVals key (xs.map Value.str) i = .ok xs := by
  induction xs with
  | nil => intro i; rfl
  | cons x xs ih => intro i; simp [strVals, parseStrAt, vmap, vseq, ih]

theorem subVals_map {α : Type} (f : Value → V α) (d : α → Value) (key : String)
    (xs : List α) (h : ∀ x ∈ xs, f (d x) = .ok x) :
    ∀ i, subVals f key (xs.map d) i = .ok xs := by
  induction xs with
  | nil => intro i; rfl
  | cons x xs ih =>
      intro i
      have hx : f (d x) = .ok x := h x (by simp)
      have hrest : ∀ y ∈ xs, f (d y) = .ok y := fun y hy => h y (by simp [hy])
      simp [subVals, hx, mapPath, vmap, vseq, ih hrest]

theorem urlWfB_some {u : String} (h : urlWfB (some u) = true) :
    isHttpUrl u = true ∧ urlNorm u = u := by
  simpa [urlWfB, Bool.and_eq_true] using h

theorem Profile_roundtrip (x : Profile) (h : x.wfB = true) :
    Profile.fromValue x.dump = .ok x := by
  obtain ⟨n, un, ou⟩ := x
  cases ou with
  | none =>
      simp [Profile.dump, Profile.fromValue, sEntry, oEntry, reqStr, optUrl, getAliased,
        lookupField, vseq]
  | some u =>
      obtain ⟨h1, h2⟩ := urlWfB_some (by simpa [Profile.wfB] using h)
      simp [Profile.dump, Profile.fromValue, sEntry, oEntry, reqStr, optUrl, getAliased,
        lookupField, vseq, h1, h2]

theorem Location_roundtrip (x : Location) : Location.fromValue x.dump = .ok x := by
  obtain ⟨oa, op, c, oc, org⟩ := x
  cases oa <;> cases op <;> cases oc <;> cases org <;>
    simp [Location.dump, Location.entries, Location.fromValue, sEntry, oEntry, reqStr,
      optStr, getAliased, lookupField, vseq]

theorem Location_fromValue_entries (l : Location) :
    Location.fromValue (.obj l.entries) = .ok l := Location_roundtrip l

theorem Basics_roundtrip (x : Basics) (h : x.wfB = true) :
    Basics.fromValue x.dump = .ok x := by
  obtain ⟨n, ol, e, oph, ou, os, oloc, ps⟩ := x
  simp only [Basics.wfB, Bool.and_eq_true] at h
  have hps : subVals Profile.fromValue "profiles" (ps.map Profile.dump) 0 = .ok ps :=
    subVals_map _ _ _ ps
      (fun pr hpr => Profile_roundtrip pr (List.all_eq_true.mp h.2 pr hpr)) 0
  cases ou with
  | none =>
      cases ol <;> cases oph <;> cases os <;> cases oloc <;>
        simp [Basics.dump, Basics.fromValue, sEntry, oEntry, locEntry, reqStr, optStr,
          optUrl, optSubF, subListF, getAliased, lookupField, vseq, hps, mapPath,
          Location.dump, Location_fromValue_entries, Except.map]
  | some u =>
      obtain ⟨h1, h2⟩ := urlWfB_some h.1
      cases ol <;> cases oph <;> cases os <;> cases oloc <;>
        simp [Basics.dump, Basics.fromValue, sEntry, oEntry, locEntry, reqStr, optStr,
          optUrl, optSubF, subListF, getAliased, lookupField, vseq, hps, mapPath,
          Location.dump, Location_fromValue_entries, Except.map, h1, h2]

theorem WorkExperience_roundtrip (x : WorkExperience) (h : x.wfB = true) :
    WorkExperience.fromValue x.dump = .ok x := by
  obtain ⟨n, po, ou, sd, oe, os, hs, ts⟩ := x
  cases ou with
  | none =>
      cases oe <;> cases os <;>
        simp [WorkExperience.dump, WorkExperience.fromValue, sEntry, oEntry, lEntry,
          reqStr, optStr, optUrl, strListF, getAliased, lookupField, vseq, strVals_map]
  | some u =>
      obtain ⟨h1, h2⟩ := urlWfB_some (by simpa [WorkExperience.wfB] using h)
      cases oe <;> cases os <;>
        simp [WorkExperience.dump, WorkExperience.fromValue, sEntry, oEntry, lEntry,
          reqStr, optStr, optUrl, strListF, getAliased, lookupField, vseq, strVals_map,
          h1, h2]

theorem Project_roundtrip (x : Project) (h : x.wfB = true) :
    Project.fromValue x.dump = .ok x := by
  obtain ⟨n, od, hs, ts, ou, osd, oed⟩ := x
  cases ou with
  | none =>
      cases od <;> cases osd <;> cases oed <;>
        simp [Project.dump, Project.fromValue, sEntry, oEntry, lEntry, reqStr, optStr,
          optUrl, strListF, getAliased, lookupField, vseq, strVals_map]
  | some u =>
      obtain ⟨h1, h2⟩ := urlWfB_some (by simpa [Project.wfB] using h)
      cases od <;> cases osd <;> cases oed <;>
        simp [Project.dump, Project.fromValue, sEntry, oEntry, lEntry, reqStr, optStr,
          optUrl, strListF, getAliased, lookupField, vseq, strVals_map, h1, h2]

theorem Education_roundtrip (x : Education) (h : x.wfB = true) :
    Education.fromValue x.dump = .ok x := by
  obtain ⟨inst, ou, ar, st, sd, oed, osc, cs⟩ := x
  cases ou with
  | none =>
      cases oed <;> cases osc <;>
        simp [Education.dump, Education.fromValue, sEntry, oEntry, lEntry, reqStr,
          optStr, optUrl, strListF, getAliased, lookupField, vseq, strVals_map]
  | some u =>
      obtain ⟨h1, h2⟩ := urlWfB_some (by simpa [Education.wfB] using h)
      cases oed <;> cases osc <;>
        simp [Education.dump, Education.fromValue, sEntry, oEntry, lEntry, reqStr,
          optStr, optUrl, strListF, getAliased, lookupField, vseq, strVals_map, h1, h2]

theorem Skill_roundtrip (x : Skill) : Skill.fromValue x.dump = .ok x := by
  obtain ⟨n, olv, ks⟩ := x
  cases olv <;>
    simp [Skill.dump, Skill.fromValue, sEntry, oEntry, lEntry, reqStr, optStr, strListF,
      getAliased, lookupField, vseq, strVals_map]

/-- C8: for every well-formed `MasterProfile` (one whose stored URLs are in
the parsed, normalized form pydantic validation produces), dumping it the
way the store writes it (`model_dump(mode="json", exclude_none=True,
by_alias=True)`, then the external YAML text layer, which round-trips
mappings) and validating the result with `MasterProfile(**data)` yields a
profile equal in every field to the original. -/
theorem c8_roundtrip (p : MasterProfile) (h : p.wfB = true) :
    MasterProfile.fromValue p.dump = .ok p := by
  obtain ⟨b, w, pj, ed, sk⟩ := p
  simp only [MasterProfile.wfB, Bool.and_eq_true] at h
  obtain ⟨⟨⟨hb, hw⟩, hpj⟩, hed⟩ := h
  have hbb := Basics_roundtrip b hb
  have hww : subVals WorkExperience.fromValue "work" (w.map WorkExperience.dump) 0 = .ok w :=
    subVals_map _ _ _ w
      (fun x hx => WorkExperience_roundtrip x (List.all_eq_true.mp hw x hx)) 0
  have hpp : subVals Project.fromValue "projects" (pj.map Project.dump) 0 = .ok pj :=
    subVals_map _ _ _ pj (fun x hx => Project_roundtrip x (List.all_eq_true.mp hpj x hx)) 0
  have hee : subVals Education.fromValue "education" (ed.map Education.dump) 0 = .ok ed :=
    subVals_map _ _ _ ed (fun x hx => Education_roundtrip x (List.all_eq_true.mp hed x hx)) 0
  have hss : subVals Skill.fromValue "skills" (sk.map Skill.dump) 0 = .ok sk :=
    subVals_map _ _ _ sk (fun x _ => Skill_roundtrip x) 0
  simp [MasterProfile.dump, MasterProfile.fromValue, reqSubF, subListF, lookupField,
    mapPath, vseq, hbb, hww, hpp, hee, hss]

/-- A fully-populated well-formed profile exercising every model. -/
def sampleRound : MasterProfile :=
  ⟨⟨"Ann", some "Engineer", "ann@x.com", some "+1 555", some "https://a.io/",
    some "Seasoned engineer.", some ⟨some "1 Main St", some "94101", "SF", some "US", some "CA"⟩,
    [⟨"github", "ann", some "https://gh.io/ann"⟩]⟩,
   [⟨"Acme", "Eng", some "https://acme.io/", "2020-01", some "2022-06", some "Led team",
     ["Shipped X"], ["Python", "AWS"]⟩],
   [⟨"Proj", some "a tool", ["H1"], ["Lean"], some "https://p.io/x", some "2021-01", none⟩],
   [⟨"Uni", some "https://uni.edu/", "CS", "BSc", "2015-09", some "2019-06", some "3.9",
     ["Math"]⟩],
   [⟨"Prog", some "expert", ["python", "aws"]⟩]⟩

/-- C8 witness: the concrete profile is well-formed and round-trips. -/
theorem c8_witness :
    MasterProfile.wfB sampleRound = true ∧
    MasterProfile.fromValue (MasterProfile.dump sampleRound) = .ok sampleRound :=
  ⟨by decide, c8_roundtrip sampleRound (by decide)⟩
